import Mathlib

/-!
Shallow embedding of pkg/table/writer.go (package table): the streaming
table writer with its sticky-error protocol, mode selection at
construction, header emission, and the standalone formatting helpers
Graph and Pointer.

External collaborators (the text/template engine, encoding/json,
sigs.k8s.io/yaml, convert.EncodeToMap, the underlying io.Writer sink and
the tabwriter flush) are modelled as oracles: arbitrary functions
supplied as parameters, recording what they would write and whether they
fail.  The sink is modelled as a trace of write/flush events on the
writer's `Writer` field, which is exactly the "sink" of the spec
(alignment-buffering tabwriter or raw pass-through).
-/

namespace Table

/-- Errors of the Go code (error values) are abstract; a string names one. -/
abbrev GoError := String

/-- Events observed by the writer's sink (`t.Writer`): a byte write or a flush. -/
inductive SinkEvent where
  | write (s : String)
  | flush
deriving DecidableEq, Repr

/-- Values stored in the generic map produced by convert.EncodeToMap
(a Go map[string]interface\x7b\x7d): either the original typed record or
some other opaque value. -/
inductive GoIface (Obj : Type) where
  | typed (o : Obj)
  | val (s : String)
deriving DecidableEq, Repr

/-- A Go map[string]interface\x7b\x7d, as an association list. -/
abbrev GoMap (Obj : Type) := List (String × GoIface Obj)

/-- Go map assignment m[k] = v: the key k now maps to v, other keys unchanged. -/
def mapSet {Obj : Type} (m : GoMap Obj) (k : String) (v : GoIface Obj) : GoMap Obj :=
  (k, v) :: m.filter (fun p => p.fst != k)

/-- Context a template is executed against: the empty struct (header),
the raw record (conversion-failure fallback), or the converted map. -/
inductive RenderCtx (Obj : Type) where
  | emptyStruct
  | rawObj (o : Obj)
  | fromMap (m : GoMap Obj)
deriving DecidableEq, Repr

/-- Oracles for the external collaborators: template parse+execute
(bytes it writes to the sink, and its error), json.MarshalIndent,
json.Marshal, yaml.JSONToYAML, convert.EncodeToMap, the sink's own
write error and the tabwriter's flush error. -/
structure Oracles (Obj : Type) where
  render : String → RenderCtx Obj → String × Option GoError
  marshalIndent : Obj → String × Option GoError
  marshal : Obj → String × Option GoError
  jsonToYAML : String → String × Option GoError
  encodeToMap : Obj → Except GoError (GoMap Obj)
  sinkWriteErr : String → Option GoError
  flushErr : Option GoError

/-- State of the `writer` struct, with the sink abstracted to its event
trace.  `isRaw` records whether `t.Writer` is the raw pass-through
(Format == "raw") or the tabwriter. -/
structure WState (Obj : Type) where
  closed : Bool
  HeaderFormat : String
  ValueFormat : String
  err : Option GoError
  headerPrinted : Bool
  isRaw : Bool
  trace : List SinkEvent
deriving DecidableEq, Repr

/-- Configuration interface WriterConfig (the sink itself lives in the trace). -/
structure WriterConfig where
  Quiet : Bool
  NoTrunc : Bool
  Format : String
  IDColumn : String
deriving DecidableEq, Repr

/-- Modelled from the spec: the external layout collaborator
(SimpleFormat / SimpleColumnFormat, declared in this repository but not
under src/) is out of scope per spec section 6 and is treated as an
opaque pair of functions producing the default header/value template
pair and a single column's value template. -/
structure Layout where
  SimpleFormat : List (List String) → String × String
  SimpleColumnFormat : String → String

/-- idFormat from writer.go: first row with more than one cell whose
first cell equals idColumn yields SimpleColumnFormat of its second cell
plus a newline; otherwise the empty string. -/
def idFormat (L : Layout) (idColumn : String) : List (List String) → String
  | [] => ""
  | vals :: rest =>
    match vals with
    | a :: b :: _ =>
      if a = idColumn then L.SimpleColumnFormat b ++ "\n"
      else idFormat L idColumn rest
    | _ => idFormat L idColumn rest

/-- NewWriter from writer.go: mode selection.  Quiet clears the header
and installs the id template; then the Format switch installs the
sentinel tags json/jsoncompact/yaml, leaves raw untouched, and treats
any other non-empty Format as a literal value template with the header
suppressed.  Format "raw" selects the pass-through sink. -/
def NewWriter (Obj : Type) (L : Layout) (values : List (List String))
    (config : WriterConfig) : WState Obj :=
  let d := L.SimpleFormat values
  let hf1 := if config.Quiet then "" else d.1
  let vf1 := if config.Quiet then idFormat L config.IDColumn values else d.2
  let hv : String × String :=
    match config.Format with
    | "json" => ("", "json")
    | "jsoncompact" => ("", "jsoncompact")
    | "yaml" => ("", "yaml")
    | "raw" => (hf1, vf1)
    | cf => if cf != "" then ("", cf ++ "\n") else (hf1, vf1)
  { closed := false, HeaderFormat := hv.1, ValueFormat := hv.2, err := none,
    headerPrinted := false, isRaw := config.Format = "raw", trace := [] }

/-- The per-writer id template function (the closure registered in the
funcMap by NewWriter): truncation to 12 characters unless NoTrunc or
Quiet.  It never returns a non-nil error. -/
def idFunc (config : WriterConfig) (obj : String) : String × Option GoError :=
  if config.NoTrunc || config.Quiet then (obj, none)
  else if 12 < obj.length then (obj.take 12, none)
  else (obj, none)

variable {Obj : Type}

/-- t.Writer.Write(s) with the returned error assigned to t.err. -/
def sinkWrite (o : Oracles Obj) (t : WState Obj) (s : String) : WState Obj :=
  { t with trace := t.trace ++ [SinkEvent.write s], err := o.sinkWriteErr s }

/-- t.Writer.Write(s) with the returned error discarded (the yaml
branch's document marker write). -/
def sinkWriteDropErr (t : WState Obj) (s : String) : WState Obj :=
  { t with trace := t.trace ++ [SinkEvent.write s] }

/-- printTemplate(t.Writer, format, ctx): the template engine writes its
output to the sink and its parse/execute error is assigned to t.err. -/
def printTemplateTo (o : Oracles Obj) (t : WState Obj) (format : String)
    (ctx : RenderCtx Obj) : WState Obj :=
  let r := o.render format ctx
  { t with trace := t.trace ++ [SinkEvent.write r.1], err := r.2 }

/-- writeHeader from writer.go: when the header template is non-empty
and the header has not been printed, set headerPrinted (before
rendering) and render the header template against the empty struct. -/
def writeHeader (o : Oracles Obj) (t : WState Obj) : WState Obj :=
  if t.HeaderFormat ≠ "" ∧ t.headerPrinted = false then
    printTemplateTo o { t with headerPrinted := true } t.HeaderFormat RenderCtx.emptyStruct
  else t

/-- FormatJSON from writer.go: MarshalIndent with 4-space indent, the
text plus a trailing newline, and the marshal error. -/
def FormatJSON (o : Oracles Obj) (data : Obj) : String × Option GoError :=
  let r := o.marshalIndent data
  (r.1 ++ "\n", r.2)

/-- FormatJSONCompact from writer.go: Marshal, the text plus a trailing
newline, and the marshal error. -/
def FormatJSONCompact (o : Oracles Obj) (data : Obj) : String × Option GoError :=
  let r := o.marshal data
  (r.1 ++ "\n", r.2)

/-- Value-emission switch of Write from writer.go, on the post-header
state: dispatch on the ValueFormat sentinel (json / jsoncompact / yaml)
or, in the default branch, convert the record to a map, inject the
"Typed" key on success, and execute the value template (falling back to
the raw record when conversion fails).  A marshal or conversion step
that fails latches its error before anything is written; the yaml
branch's "---" marker write discards the sink's error like the source. -/
def writeValue (o : Oracles Obj) (t1 : WState Obj) (obj : Obj) : WState Obj :=
  if t1.ValueFormat = "json" then
    match FormatJSON o obj with
    | (_, some e) => { t1 with err := some e }
    | (content, none) => sinkWrite o t1 (content ++ "\n")
  else if t1.ValueFormat = "jsoncompact" then
    match FormatJSONCompact o obj with
    | (_, some e) => { t1 with err := some e }
    | (content, none) => sinkWrite o t1 content
  else if t1.ValueFormat = "yaml" then
    match FormatJSON o obj with
    | (_, some e) => { t1 with err := some e }
    | (content, none) =>
      match o.jsonToYAML content with
      | (_, some e) => { t1 with err := some e }
      | (converted, none) =>
        sinkWrite o (sinkWriteDropErr t1 "---\n") (converted ++ "\n")
  else
    match o.encodeToMap obj with
    | Except.ok data =>
      printTemplateTo o t1 t1.ValueFormat
        (RenderCtx.fromMap (mapSet data "Typed" (GoIface.typed obj)))
    | Except.error _ =>
      printTemplateTo o t1 t1.ValueFormat (RenderCtx.rawObj obj)

/-- Write from writer.go: no-op on a sticky error; emit the header,
stopping if that latches an error; then emit the value. -/
def Write (o : Oracles Obj) (t : WState Obj) (obj : Obj) : WState Obj :=
  if t.err.isSome then t
  else if (writeHeader o t).err.isSome then writeHeader o t
  else writeValue o (writeHeader o t) obj

/-- Close from writer.go: early return of the stored error when already
closed or errored (the errored early return happens before the deferred
closed := true is armed, so it does not mark the writer closed); then
header emission, and a flush of the tabwriter sink whose error is
returned but not stored. -/
def Close (o : Oracles Obj) (t : WState Obj) : WState Obj × Option GoError :=
  if t.closed then (t, t.err)
  else if t.err.isSome then (t, t.err)
  else if (writeHeader o t).err.isSome then
    ({ writeHeader o t with closed := true }, (writeHeader o t).err)
  else if (writeHeader o t).isRaw then
    ({ writeHeader o t with closed := true }, none)
  else
    ({ writeHeader o t with closed := true, trace := (writeHeader o t).trace ++ [SinkEvent.flush] }, o.flushErr)

/-- A single operation on the writer. -/
inductive Op (Obj : Type) where
  | write (obj : Obj)
  | close
deriving DecidableEq, Repr

/-- One operation step (the error returned by Close is dropped; it is
recoverable from the state except for a non-latched flush error). -/
def step (o : Oracles Obj) (t : WState Obj) : Op Obj → WState Obj
  | Op.write x => Write o t x
  | Op.close => (Close o t).1

/-- Run a sequence of operations. -/
def run (o : Oracles Obj) (t : WState Obj) : List (Op Obj) → WState Obj
  | [] => t
  | op :: ops => run o (step o t op) ops

/-- Loop body of Graph from writer.go, by remaining iterations: the loop
runs i = 0 .. bars-1 writing "=" at each index except the last, where it
writes "> value" and breaks; here the argument counts the iterations
still to run (bars - i), so 1 is the last index. -/
def graphLoop (value : Int) : Nat → String
  | 0 => ""
  | 1 => "> " ++ toString value
  | Nat.succ (Nat.succ k) => "=" ++ graphLoop value (Nat.succ k)

/-- Fuel-based floor of the base-2 logarithm (structural recursion so
that proofs can evaluate it). -/
def log2fuel : Nat → Nat → Nat
  | 0, _ => 0
  | fuel + 1, n => if n ≤ 1 then 0 else log2fuel fuel (n / 2) + 1

/-- Floor of the base-2 logarithm of a positive natural. -/
def log2nat (n : Nat) : Nat := log2fuel n n

/-- A dyadic rational m * 2^p: the exact value of a finite IEEE 754
binary64 number. -/
structure Dyadic where
  m : Int
  p : Int
deriving DecidableEq, Repr

/-- Whether 2^e ≤ a / b for naturals a, b with b > 0. -/
def pow2LeRat (e : Int) (a b : Nat) : Bool :=
  if 0 ≤ e then b * 2 ^ e.toNat ≤ a else b ≤ a * 2 ^ (-e).toNat

/-- Modelled from the IEEE 754 binary64 semantics of Go's float64
(conversions and the arithmetic operators are correctly rounded):
round the rational num / den (den > 0) to the nearest binary64 value,
ties to even.  The significand is quantized at 2^(e-52) where
2^e ≤ |num / den| < 2^(e+1), clamped at the subnormal quantum 2^-1074;
exponent overflow to infinity is not modelled, as no input reachable
from a 64-bit integer argument of Graph comes near it. -/
def f64OfRat (num : Int) (den : Nat) : Dyadic :=
  let a := num.natAbs
  if a = 0 then ⟨0, 0⟩
  else
    let e0 : Int := (log2nat a : Int) - (log2nat den : Int)
    let e : Int := if pow2LeRat e0 a den then e0 else e0 - 1
    let k : Int := if e - 52 < -1074 then -1074 else e - 52
    let nn : Nat := if 0 ≤ k then a else a * 2 ^ (-k).toNat
    let dd : Nat := if 0 ≤ k then den * 2 ^ k.toNat else den
    let n : Nat := nn / dd
    let r : Nat := nn % dd
    let mm : Nat :=
      if 2 * r < dd then n
      else if dd < 2 * r then n + 1
      else if n % 2 = 0 then n else n + 1
    ⟨(if num < 0 then -(mm : Int) else (mm : Int)), k⟩

/-- Go's int(x) conversion of a finite float64: truncation toward
zero. -/
def dyadicTrunc (d : Dyadic) : Int :=
  if 0 ≤ d.p then d.m * 2 ^ d.p.toNat
  else Int.tdiv d.m (2 ^ (-d.p).toNat)

/-- The bars computation of Graph from writer.go,
int(float64(value) / 100.0 * 30), modelled bit-exactly: float64(value)
rounds the integer to binary64, the division by 100.0 and the
multiplication by 30 are each correctly rounded binary64 operations,
and the int conversion truncates toward zero. -/
def float64Bars (value : Int) : Int :=
  let x1 := f64OfRat value 1
  let x2 :=
    if 0 ≤ x1.p then f64OfRat (x1.m * 2 ^ x1.p.toNat) 100
    else f64OfRat x1.m (100 * 2 ^ (-x1.p).toNat)
  let x3 :=
    if 0 ≤ x2.p then f64OfRat (x2.m * 30 * 2 ^ x2.p.toNat) 1
    else f64OfRat (x2.m * 30) (2 ^ (-x2.p).toNat)
  dyadicTrunc x3

/-- Graph from writer.go: bars = int(float64(value) / 100.0 * 30)
(the float64 computation, see float64Bars), then the loop emitting "="
for every index but the last, which gets the label.  Like the source,
the error component is always nil. -/
def Graph (value : Int) : String × Option GoError :=
  (graphLoop value (float64Bars value).toNat, none)

/-- Statement of the graph claim's output, following the spec's words:
bars = floor(value / 100 * 30); empty when bars is not positive,
otherwise bars characters, all of them "=" except the last, which is
replaced by the label "> value". -/
def graphSpec (value : Int) : String :=
  let bars : Int := Int.fdiv (value * 30) 100
  if bars ≤ 0 then ""
  else String.mk (List.replicate (bars - 1).toNat '=') ++ ("> " ++ toString value)

/-- A Go interface value handed to Pointer, tagged by reflect.Kind:
the nil interface, values of non-nilable kinds (int, string), and
values of nilable kinds (pointer, slice, map), each possibly nil; the
payload of a non-nil reference is kept as the printed forms of the
referenced elements. -/
inductive GoVal where
  | nilInterface
  | intVal (n : Int)
  | strVal (s : String)
  | ptrVal (v : Option String)
  | sliceVal (v : Option (List String))
  | mapVal (v : Option (List (String × String)))
deriving DecidableEq, Repr

/-- Whether a value's reflect.Kind is one of the nilable kinds
(Chan, Func, Interface, Map, Pointer, Slice). -/
def GoVal.nilableKind : GoVal → Bool
  | GoVal.ptrVal _ => true
  | GoVal.sliceVal _ => true
  | GoVal.mapVal _ => true
  | _ => false

/-- Modelled from the Go reflect package documentation:
reflect.ValueOf(data).IsNil() panics (none) on the zero Value obtained
from a nil interface and on any value whose Kind is not nilable;
otherwise it reports whether the value is nil. -/
def GoVal.isNil : GoVal → Option Bool
  | GoVal.nilInterface => none
  | GoVal.intVal _ => none
  | GoVal.strVal _ => none
  | GoVal.ptrVal v => some v.isNone
  | GoVal.sliceVal v => some v.isNone
  | GoVal.mapVal v => some v.isNone

/-- Modelled from the Go fmt package semantics (simplified):
fmt.Sprint's printed form of the modelled values. -/
def GoVal.sprint : GoVal → String
  | GoVal.nilInterface => "<nil>"
  | GoVal.intVal n => toString n
  | GoVal.strVal s => s
  | GoVal.ptrVal none => "<nil>"
  | GoVal.ptrVal (some v) => "&" ++ v
  | GoVal.sliceVal none => "[]"
  | GoVal.sliceVal (some l) => "[" ++ String.intercalate " " l ++ "]"
  | GoVal.mapVal none => "map[]"
  | GoVal.mapVal (some l) =>
    "map[" ++ String.intercalate " " (l.map (fun p => p.fst ++ ":" ++ p.snd)) ++ "]"

/-- Pointer from writer.go: calls reflect.ValueOf(data).IsNil() — which
panics on non-nilable kinds and on the nil interface (none) — and
returns the empty string for a nil reference, fmt.Sprint otherwise. -/
def Pointer (data : GoVal) : Option String :=
  match data.isNil with
  | none => none
  | some true => some ""
  | some false => some data.sprint

/-- Number of flush events in a sink trace. -/
def flushCount (tr : List SinkEvent) : Nat :=
  tr.countP (fun e => match e with | SinkEvent.flush => true | _ => false)

section Lemmas

variable (o : Oracles Obj) (t : WState Obj) (s : String) (ctx : RenderCtx Obj)

@[simp] theorem flushCount_append (a b : List SinkEvent) :
    flushCount (a ++ b) = flushCount a + flushCount b :=
  List.countP_append _ _ _

@[simp] theorem flushCount_write_singleton :
    flushCount [SinkEvent.write s] = 0 := rfl

@[simp] theorem flushCount_write_cons (l : List SinkEvent) :
    flushCount (SinkEvent.write s :: l) = flushCount l := by
  simp [flushCount]

@[simp] theorem flushCount_nil : flushCount ([] : List SinkEvent) = 0 := rfl

@[simp] theorem flushCount_flush_singleton :
    flushCount [SinkEvent.flush] = 1 := rfl

@[simp] theorem sinkWrite_closed : (sinkWrite o t s).closed = t.closed := rfl
@[simp] theorem sinkWrite_HeaderFormat : (sinkWrite o t s).HeaderFormat = t.HeaderFormat := rfl
@[simp] theorem sinkWrite_ValueFormat : (sinkWrite o t s).ValueFormat = t.ValueFormat := rfl
@[simp] theorem sinkWrite_headerPrinted : (sinkWrite o t s).headerPrinted = t.headerPrinted := rfl
@[simp] theorem sinkWrite_isRaw : (sinkWrite o t s).isRaw = t.isRaw := rfl
@[simp] theorem sinkWrite_trace : (sinkWrite o t s).trace = t.trace ++ [SinkEvent.write s] := rfl
@[simp] theorem sinkWrite_err : (sinkWrite o t s).err = o.sinkWriteErr s := rfl

@[simp] theorem sinkWriteDropErr_closed : (sinkWriteDropErr t s).closed = t.closed := rfl
@[simp] theorem sinkWriteDropErr_HeaderFormat :
    (sinkWriteDropErr t s).HeaderFormat = t.HeaderFormat := rfl
@[simp] theorem sinkWriteDropErr_ValueFormat :
    (sinkWriteDropErr t s).ValueFormat = t.ValueFormat := rfl
@[simp] theorem sinkWriteDropErr_headerPrinted :
    (sinkWriteDropErr t s).headerPrinted = t.headerPrinted := rfl
@[simp] theorem sinkWriteDropErr_isRaw : (sinkWriteDropErr t s).isRaw = t.isRaw := rfl
@[simp] theorem sinkWriteDropErr_trace :
    (sinkWriteDropErr t s).trace = t.trace ++ [SinkEvent.write s] := rfl
@[simp] theorem sinkWriteDropErr_err : (sinkWriteDropErr t s).err = t.err := rfl

@[simp] theorem printTemplateTo_closed : (printTemplateTo o t s ctx).closed = t.closed := rfl
@[simp] theorem printTemplateTo_HeaderFormat :
    (printTemplateTo o t s ctx).HeaderFormat = t.HeaderFormat := rfl
@[simp] theorem printTemplateTo_ValueFormat :
    (printTemplateTo o t s ctx).ValueFormat = t.ValueFormat := rfl
@[simp] theorem printTemplateTo_headerPrinted :
    (printTemplateTo o t s ctx).headerPrinted = t.headerPrinted := rfl
@[simp] theorem printTemplateTo_isRaw : (printTemplateTo o t s ctx).isRaw = t.isRaw := rfl
@[simp] theorem printTemplateTo_trace :
    (printTemplateTo o t s ctx).trace = t.trace ++ [SinkEvent.write (o.render s ctx).1] := rfl
@[simp] theorem printTemplateTo_err :
    (printTemplateTo o t s ctx).err = (o.render s ctx).2 := rfl

theorem writeHeader_closed : (writeHeader o t).closed = t.closed := by
  unfold writeHeader; split <;> simp

theorem writeHeader_HeaderFormat : (writeHeader o t).HeaderFormat = t.HeaderFormat := by
  unfold writeHeader; split <;> simp

theorem writeHeader_ValueFormat : (writeHeader o t).ValueFormat = t.ValueFormat := by
  unfold writeHeader; split <;> simp

theorem writeHeader_isRaw : (writeHeader o t).isRaw = t.isRaw := by
  unfold writeHeader; split <;> simp

theorem writeHeader_flushCount :
    flushCount (writeHeader o t).trace = flushCount t.trace := by
  unfold writeHeader; split <;> simp

theorem writeHeader_headerPrinted :
    (writeHeader o t).headerPrinted = (t.headerPrinted || (t.HeaderFormat != "")) := by
  unfold writeHeader
  split
  · rename_i h
    simp [h.1, h.2]
  · rename_i h
    by_cases hp : t.headerPrinted = true
    · simp [hp]
    · have hf : t.HeaderFormat = "" := by
        by_contra hne
        exact h ⟨hne, by simpa using hp⟩
      simp [hf, hp]

theorem writeHeader_of_empty (h : t.HeaderFormat = "") : writeHeader o t = t := by
  unfold writeHeader
  rw [if_neg]
  intro hc
  exact hc.1 h

end Lemmas

section StepLemmas

variable (o : Oracles Obj) (t : WState Obj) (x : Obj)

theorem writeValue_preserves :
    (writeValue o t x).closed = t.closed ∧
    (writeValue o t x).HeaderFormat = t.HeaderFormat ∧
    (writeValue o t x).ValueFormat = t.ValueFormat ∧
    (writeValue o t x).isRaw = t.isRaw ∧
    (writeValue o t x).headerPrinted = t.headerPrinted ∧
    flushCount (writeValue o t x).trace = flushCount t.trace := by
  unfold writeValue
  repeat' split
  all_goals simp

theorem Write_preserves :
    (Write o t x).closed = t.closed ∧
    (Write o t x).HeaderFormat = t.HeaderFormat ∧
    (Write o t x).ValueFormat = t.ValueFormat ∧
    (Write o t x).isRaw = t.isRaw ∧
    flushCount (Write o t x).trace = flushCount t.trace := by
  have hc := writeHeader_closed o t
  have hh := writeHeader_HeaderFormat o t
  have hv := writeHeader_ValueFormat o t
  have hr := writeHeader_isRaw o t
  have hf := writeHeader_flushCount o t
  have hw := writeValue_preserves o (writeHeader o t) x
  unfold Write
  split
  · exact ⟨rfl, rfl, rfl, rfl, rfl⟩
  · split
    · exact ⟨hc, hh, hv, hr, hf⟩
    · exact ⟨hw.1.trans hc, hw.2.1.trans hh, hw.2.2.1.trans hv, hw.2.2.2.1.trans hr,
        hw.2.2.2.2.2.trans hf⟩


theorem Close_of_closed (h : t.closed = true) : Close o t = (t, t.err) := by
  unfold Close
  rw [if_pos h]

theorem Close_state_closed_or_err :
    ((Close o t).1.closed = true) ∨ ((Close o t).1 = t ∧ t.err.isSome) := by
  unfold Close
  by_cases hc : t.closed = true
  · left; simp [hc]
  · rw [if_neg hc]
    by_cases he : t.err.isSome
    · right; simp [he]
    · left
      rw [if_neg he]
      split
      · rfl
      · split <;> rfl

theorem Close_flushCount :
    flushCount (Close o t).1.trace ≤
      flushCount t.trace + (if t.closed then 0 else 1) := by
  have hf := writeHeader_flushCount o t
  unfold Close
  by_cases hc : t.closed = true
  · simp [hc]
  · rw [if_neg hc]
    simp only [hc]
    by_cases he : t.err.isSome
    · simp [he]
    · rw [if_neg he]
      split
      · simp [hf]
      · split <;> simp [hf]

theorem Close_closed_after (h : t.closed = true) : (Close o t).1.closed = true := by
  rw [Close_of_closed o t h]; exact h

theorem Write_of_err (e : GoError) (h : t.err = some e) : Write o t x = t := by
  unfold Write
  rw [if_pos]
  simp [h]

theorem Close_of_err (e : GoError) (h : t.err = some e) : Close o t = (t, some e) := by
  unfold Close
  by_cases hc : t.closed = true
  · simp [hc, h]
  · simp [hc, h]

theorem step_of_err (e : GoError) (h : t.err = some e) : ∀ op, step o t op = t := by
  intro op
  cases op with
  | write x => exact Write_of_err o t x e h
  | close =>
    show (Close o t).1 = t
    rw [Close_of_err o t e h]

theorem run_of_err (e : GoError) (h : t.err = some e) :
    ∀ ops : List (Op Obj), run o t ops = t := by
  intro ops
  induction ops with
  | nil => rfl
  | cons op ops ih =>
    show run o (step o t op) ops = t
    rw [step_of_err o t e h op]
    exact ih

theorem Close_HeaderFormat (o : Oracles Obj) (t : WState Obj) :
    (Close o t).1.HeaderFormat = t.HeaderFormat := by
  have hh := writeHeader_HeaderFormat o t
  unfold Close
  split
  · rfl
  · split
    · rfl
    · split
      · exact hh
      · split <;> exact hh

theorem Close_headerPrinted_mono (o : Oracles Obj) (t : WState Obj)
    (h : t.headerPrinted = true) : (Close o t).1.headerPrinted = true := by
  have hp := writeHeader_headerPrinted o t
  rw [h] at hp
  simp only [Bool.true_or] at hp
  unfold Close
  split
  · exact h
  · split
    · exact h
    · split
      · exact hp
      · split <;> exact hp

theorem Close_headerPrinted_of_empty (o : Oracles Obj) (t : WState Obj)
    (h : t.HeaderFormat = "") : (Close o t).1.headerPrinted = t.headerPrinted := by
  have hw := writeHeader_of_empty o t h
  unfold Close
  split
  · rfl
  · split
    · rfl
    · rw [hw]
      split
      · rfl
      · split <;> rfl

theorem step_headerPrinted_mono (o : Oracles Obj) (t : WState Obj)
    (h : t.headerPrinted = true) : ∀ op, (step o t op).headerPrinted = true := by
  intro op
  cases op with
  | write x =>
    show (Write o t x).headerPrinted = true
    have hp := writeHeader_headerPrinted o t
    rw [h] at hp
    simp only [Bool.true_or] at hp
    have hv := (writeValue_preserves o (writeHeader o t) x).2.2.2.2.1
    unfold Write
    split
    · exact h
    · split
      · exact hp
      · exact hv.trans hp
  | close => exact Close_headerPrinted_mono o t h

theorem run_headerPrinted_mono (o : Oracles Obj) (t : WState Obj)
    (h : t.headerPrinted = true) : ∀ ops, (run o t ops).headerPrinted = true := by
  intro ops
  induction ops generalizing t with
  | nil => exact h
  | cons op ops ih =>
    show (run o (step o t op) ops).headerPrinted = true
    exact ih (step o t op) (step_headerPrinted_mono o t h op)

theorem step_HeaderFormat (o : Oracles Obj) (t : WState Obj) :
    ∀ op, (step o t op).HeaderFormat = t.HeaderFormat := by
  intro op
  cases op with
  | write x => exact (Write_preserves o t x).2.1
  | close => exact Close_HeaderFormat o t

theorem step_headerPrinted_of_empty (o : Oracles Obj) (t : WState Obj)
    (h : t.HeaderFormat = "") : ∀ op, (step o t op).headerPrinted = t.headerPrinted := by
  intro op
  cases op with
  | write x =>
    show (Write o t x).headerPrinted = t.headerPrinted
    have hw := writeHeader_of_empty o t h
    have hv := (writeValue_preserves o (writeHeader o t) x).2.2.2.2.1
    unfold Write
    split
    · rfl
    · split
      · rw [hw]
      · rw [hv, hw]
  | close => exact Close_headerPrinted_of_empty o t h

theorem run_headerPrinted_of_empty (o : Oracles Obj) (t : WState Obj)
    (h : t.HeaderFormat = "") :
    ∀ ops, (run o t ops).headerPrinted = t.headerPrinted := by
  intro ops
  induction ops generalizing t with
  | nil => rfl
  | cons op ops ih =>
    show (run o (step o t op) ops).headerPrinted = t.headerPrinted
    rw [ih (step o t op) ((step_HeaderFormat o t op).trans h),
      step_headerPrinted_of_empty o t h op]

/-- Verification measure: flushes so far, plus one potential future
flush while the writer is not closed. -/
def flushBound (t : WState Obj) : Nat :=
  flushCount t.trace + (if t.closed then 0 else 1)

theorem Close_flushBound (o : Oracles Obj) (t : WState Obj) :
    flushBound (Close o t).1 ≤ flushBound t := by
  have hf := writeHeader_flushCount o t
  by_cases hcl : t.closed = true
  · rw [Close_of_closed o t hcl]
  · have hcl' : t.closed = false := by simpa using hcl
    by_cases he : t.err.isSome = true
    · have hcc : Close o t = (t, t.err) := by
        unfold Close
        rw [if_neg (by simp [hcl']), if_pos he]
      rw [hcc]
    · unfold Close
      rw [if_neg (by simp [hcl']), if_neg (by simp [he])]
      split
      · simp [flushBound, hf, hcl']
      · split
        · simp [flushBound, hf, hcl']
        · simp [flushBound, hf, hcl']

theorem step_flushBound (o : Oracles Obj) (t : WState Obj) :
    ∀ op, flushBound (step o t op) ≤ flushBound t := by
  intro op
  cases op with
  | write x =>
    show flushBound (Write o t x) ≤ flushBound t
    have h1 := (Write_preserves o t x).1
    have h2 := (Write_preserves o t x).2.2.2.2
    unfold flushBound
    rw [h1, h2]
  | close => exact Close_flushBound o t

theorem run_flushBound (o : Oracles Obj) (t : WState Obj) :
    ∀ ops, flushBound (run o t ops) ≤ flushBound t := by
  intro ops
  induction ops generalizing t with
  | nil => exact Nat.le_refl _
  | cons op ops ih =>
    exact Nat.le_trans (ih (step o t op)) (step_flushBound o t op)

end StepLemmas

/-- Concrete all-succeeding oracles over the unit record type, for
witnesses: templates echo their text, marshalling yields "null",
conversion fails (so templated writes take the fallback), the sink and
the flush never fail. -/
def oU : Oracles Unit :=
  { render := fun f _ => (f, none),
    marshalIndent := fun _ => ("null", none),
    marshal := fun _ => ("null", none),
    jsonToYAML := fun s => (s, none),
    encodeToMap := fun _ => Except.error "conversion failed",
    sinkWriteErr := fun _ => none,
    flushErr := none }

/-- Oracles whose template engine always fails. -/
def oRenderFail : Oracles Unit :=
  { oU with render := fun _ _ => ("", some "render failed") }

/-- Oracles whose tabwriter flush fails. -/
def oFlushFail : Oracles Unit :=
  { oU with flushErr := some "flush failed" }

/-- A concrete layout collaborator for witnesses. -/
def LU : Layout :=
  { SimpleFormat := fun _ => ("HDR", "VAL"),
    SimpleColumnFormat := fun s => "col:" ++ s }

/-- A raw-mode, non-quiet configuration. -/
def cfgRaw : WriterConfig :=
  { Quiet := false, NoTrunc := false, Format := "raw", IDColumn := "ID" }

/-- A json-mode configuration. -/
def cfgJson : WriterConfig :=
  { Quiet := false, NoTrunc := false, Format := "json", IDColumn := "ID" }

/-- A default (table-mode) configuration. -/
def cfgTable : WriterConfig :=
  { Quiet := false, NoTrunc := false, Format := "", IDColumn := "ID" }

/-- A quiet configuration with the default format. -/
def cfgQuiet : WriterConfig :=
  { Quiet := true, NoTrunc := false, Format := "", IDColumn := "ID" }

/-- A fresh open writer state with a pending header. -/
def tHdr : WState Unit :=
  { closed := false, HeaderFormat := "H", ValueFormat := "V", err := none,
    headerPrinted := false, isRaw := false, trace := [] }

/-- A writer state carrying a sticky error. -/
def tErrSt : WState Unit :=
  { closed := false, HeaderFormat := "H", ValueFormat := "V", err := some "boom",
    headerPrinted := false, isRaw := false, trace := [SinkEvent.write "x"] }

/-- A fresh open buffered-sink writer with no header to print. -/
def tNoHdr : WState Unit :=
  { closed := false, HeaderFormat := "", ValueFormat := "V", err := none,
    headerPrinted := false, isRaw := false, trace := [] }

/-- C1: once the sticky error is non-nil, every subsequent Write and
Close is a no-op on the state; in particular no further bytes (and no
further events at all) reach the sink, for every sequence of calls. -/
theorem C1_stickyError_no_further_sink_bytes {Obj : Type} (o : Oracles Obj)
    (t : WState Obj) (e : GoError) (ops : List (Op Obj)) (h : t.err = some e) :
    (run o t ops).trace = t.trace := by
  rw [run_of_err o t e h ops]

/-- C1 witness: a writer with a latched error keeps its sink trace
unchanged across a further Write and Close. -/
theorem C1_witness :
    (run oU tErrSt [Op.write (), Op.close]).trace = tErrSt.trace :=
  C1_stickyError_no_further_sink_bytes oU tErrSt "boom" [Op.write (), Op.close] rfl

/-- C2 counterexample: on a Write whose header render fails, the code
sets headerPrinted before rendering, so the flag is true after the
failed render — the claim says it stays false. -/
theorem C2_counterexample :
    (oRenderFail.render tHdr.HeaderFormat RenderCtx.emptyStruct).2 = some "render failed" ∧
    tHdr.headerPrinted = false ∧
    (Write oRenderFail tHdr ()).err = some "render failed" ∧
    (Write oRenderFail tHdr ()).headerPrinted = true := by
  refine ⟨rfl, rfl, ?_, ?_⟩ <;> rfl

/-- C2 amended: headerPrinted transitions false to true at most once
(it is monotone under every operation sequence), and on an error-free
writer a Write sets it exactly when the header template is non-empty
and it was not yet set — regardless of whether the header render
succeeds. -/
theorem C2_headerPrinted_amended {Obj : Type} (o : Oracles Obj) (t : WState Obj)
    (x : Obj) :
    (t.headerPrinted = true → ∀ ops, (run o t ops).headerPrinted = true) ∧
    (t.err = none →
      (Write o t x).headerPrinted = (t.headerPrinted || (t.HeaderFormat != ""))) := by
  constructor
  · intro h ops
    exact run_headerPrinted_mono o t h ops
  · intro he
    have hp := writeHeader_headerPrinted o t
    have hv := (writeValue_preserves o (writeHeader o t) x).2.2.2.2.1
    unfold Write
    rw [if_neg (by simp [he])]
    split
    · exact hp
    · exact hv.trans hp

/-- C2 witness: a successful header render on a fresh writer flips
headerPrinted, and it stays true over further operations. -/
theorem C2_witness :
    (Write oU tHdr ()).headerPrinted = (tHdr.headerPrinted || (tHdr.HeaderFormat != "")) ∧
    (run oU { tHdr with headerPrinted := true } [Op.write (), Op.close]).headerPrinted = true :=
  ⟨(C2_headerPrinted_amended oU tHdr ()).2 rfl,
    (C2_headerPrinted_amended oU { tHdr with headerPrinted := true } ()).1 rfl
      [Op.write (), Op.close]⟩

/-- C3 counterexample: with Format "raw" (not quiet) the header
template keeps the layout default "HDR", and the first Write renders
and emits it: the headerPrinted transition fires and header bytes reach
the sink, contradicting the claim that it never fires in raw mode. -/
theorem C3_counterexample :
    (NewWriter Unit LU [] cfgRaw).HeaderFormat = "HDR" ∧
    (Write oU (NewWriter Unit LU [] cfgRaw) ()).headerPrinted = true ∧
    (Write oU (NewWriter Unit LU [] cfgRaw) ()).trace =
      [SinkEvent.write "HDR", SinkEvent.write "VAL"] := by
  refine ⟨rfl, ?_, ?_⟩ <;> rfl

/-- C3 amended: in json, jsoncompact and yaml modes the header template
is empty, so the headerPrinted transition never fires and writeHeader
is the identity over every operation sequence; in raw mode the header
template is left as it was (the layout default, or empty when Quiet),
so the transition does fire whenever that template is non-empty. -/
theorem C3_amended {Obj : Type} (o : Oracles Obj) (L : Layout)
    (values : List (List String)) (cfg : WriterConfig) (ops : List (Op Obj)) :
    (cfg.Format = "json" ∨ cfg.Format = "jsoncompact" ∨ cfg.Format = "yaml" →
      (NewWriter Obj L values cfg).HeaderFormat = "" ∧
      (run o (NewWriter Obj L values cfg) ops).headerPrinted = false) ∧
    (cfg.Format = "raw" →
      (NewWriter Obj L values cfg).HeaderFormat =
        (if cfg.Quiet then "" else (L.SimpleFormat values).1)) ∧
    (∀ t : WState Obj, t.HeaderFormat = "" → writeHeader o t = t) := by
  refine ⟨?_, ?_, fun t h => writeHeader_of_empty o t h⟩
  · intro h
    have hf : (NewWriter Obj L values cfg).HeaderFormat = "" := by
      rcases h with h | h | h <;> simp [NewWriter, h]
    refine ⟨hf, ?_⟩
    rw [run_headerPrinted_of_empty o (NewWriter Obj L values cfg) hf ops]
    rfl
  · intro h
    simp [NewWriter, h]

/-- C3 witness: a json-mode writer emits no header over a Write then
Close, and a non-quiet raw-mode writer keeps the default header. -/
theorem C3_witness :
    ((NewWriter Unit LU [] cfgJson).HeaderFormat = "" ∧
      (run oU (NewWriter Unit LU [] cfgJson) [Op.write (), Op.close]).headerPrinted = false) ∧
    (NewWriter Unit LU [] cfgRaw).HeaderFormat =
      (if cfgRaw.Quiet then "" else (LU.SimpleFormat []).1) :=
  ⟨(C3_amended oU LU [] cfgJson [Op.write (), Op.close]).1 (Or.inl rfl),
    (C3_amended oU LU [] cfgRaw []).2.1 rfl⟩

theorem Close_Close {Obj : Type} (o : Oracles Obj) (t : WState Obj) :
    Close o (Close o t).1 = ((Close o t).1, (Close o t).1.err) := by
  rcases Close_state_closed_or_err o t with h | ⟨h1, h2⟩
  · exact Close_of_closed o (Close o t).1 h
  · rw [h1]
    obtain ⟨e, he⟩ := Option.isSome_iff_exists.mp h2
    rw [Close_of_err o t e he, he]

theorem Close_ret_of_flushOk {Obj : Type} (o : Oracles Obj) (t : WState Obj)
    (hfl : o.flushErr = none) : (Close o t).2 = (Close o t).1.err := by
  by_cases hcl : t.closed = true
  · rw [Close_of_closed o t hcl]
  · have hcl' : t.closed = false := by simpa using hcl
    by_cases he : t.err.isSome = true
    · obtain ⟨e, hee⟩ := Option.isSome_iff_exists.mp he
      rw [Close_of_err o t e hee, hee]
    · unfold Close
      rw [if_neg (by simp [hcl']), if_neg (by simp [he])]
      split
      · rfl
      · rename_i hhe
        have hnone : (writeHeader o t).err = none := by
          simpa using hhe
        split
        · simpa using hnone.symm
        · rw [hfl]
          simpa using hnone.symm

/-- C4 counterexample: when the first Close's flush fails, the flush
error is returned but not latched, so the second Close returns nil —
the two Close calls do not return the identical error. -/
theorem C4_counterexample :
    (Close oFlushFail tNoHdr).2 = some "flush failed" ∧
    (Close oFlushFail (Close oFlushFail tNoHdr).1).2 = none ∧
    some "flush failed" ≠ (none : Option GoError) := by
  refine ⟨rfl, rfl, by simp⟩

/-- C4 amended: a second Close leaves the state — sink trace included —
entirely unchanged and returns the stored error; the two Close calls
return the identical error whenever the flush does not fail (a failed
flush is returned by the first Close but never latched); in the Errored
state Close returns the stored error with the state, the closed flag
included, untouched (the writer is not marked closed, but every later
Close still returns that same stored error); and over every operation
sequence on a newly constructed writer the sink is flushed at most
once. -/
theorem C4_amended {Obj : Type} (o : Oracles Obj) (t : WState Obj) (L : Layout)
    (values : List (List String)) (cfg : WriterConfig) (ops : List (Op Obj)) :
    Close o (Close o t).1 = ((Close o t).1, (Close o t).1.err) ∧
    (o.flushErr = none → (Close o t).2 = (Close o (Close o t).1).2) ∧
    (∀ e, t.err = some e → Close o t = (t, some e)) ∧
    flushCount (run o (NewWriter Obj L values cfg) ops).trace ≤ 1 := by
  refine ⟨Close_Close o t, ?_, fun e he => Close_of_err o t e he, ?_⟩
  · intro hfl
    rw [Close_Close o t]
    exact Close_ret_of_flushOk o t hfl
  · calc flushCount (run o (NewWriter Obj L values cfg) ops).trace
        ≤ flushBound (run o (NewWriter Obj L values cfg) ops) := Nat.le_add_right _ _
      _ ≤ flushBound (NewWriter Obj L values cfg) :=
          run_flushBound o (NewWriter Obj L values cfg) ops
      _ = 1 := rfl

/-- C4 witness: concrete double Close on a fresh buffered writer, an
errored Close, and a flush-count bound over a concrete run. -/
theorem C4_witness :
    Close oU (Close oU tNoHdr).1 = ((Close oU tNoHdr).1, (Close oU tNoHdr).1.err) ∧
    (Close oU tNoHdr).2 = (Close oU (Close oU tNoHdr).1).2 ∧
    Close oU tErrSt = (tErrSt, some "boom") ∧
    flushCount (run oU (NewWriter Unit LU [] cfgTable)
      [Op.write (), Op.close, Op.close]).trace ≤ 1 :=
  ⟨(C4_amended oU tNoHdr LU [] cfgTable []).1,
    (C4_amended oU tNoHdr LU [] cfgTable []).2.1 rfl,
    (C4_amended oU tErrSt LU [] cfgTable []).2.2.1 "boom" rfl,
    (C4_amended oU tNoHdr LU [] cfgTable [Op.write (), Op.close, Op.close]).2.2.2⟩

theorem writeValue_json {Obj : Type} (o : Oracles Obj) (t : WState Obj) (x : Obj)
    (s : String) (hv : t.ValueFormat = "json") (hm : o.marshalIndent x = (s, none)) :
    writeValue o t x = sinkWrite o t ((s ++ "\n") ++ "\n") := by
  have hc : FormatJSON o x = (s ++ "\n", none) := by rw [FormatJSON, hm]
  unfold writeValue
  rw [hv, if_pos rfl, hc]

theorem Write_json {Obj : Type} (o : Oracles Obj) (t : WState Obj) (x : Obj)
    (s : String) (he : t.err = none) (hh : t.HeaderFormat = "")
    (hv : t.ValueFormat = "json") (hm : o.marshalIndent x = (s, none)) :
    Write o t x = sinkWrite o t ((s ++ "\n") ++ "\n") := by
  unfold Write
  rw [writeHeader_of_empty o t hh, if_neg (by simp [he]), if_neg (by simp [he])]
  exact writeValue_json o t x s hv hm

/-- C5 counterexample: in JSON mode the code emits the marshalled
document followed by two newlines (FormatJSON appends one and Write
appends another), not by a single newline as the claim states. -/
theorem C5_counterexample :
    oU.marshalIndent () = ("null", none) ∧
    (Write oU (NewWriter Unit LU [] cfgJson) ()).trace = [SinkEvent.write "null\n\n"] ∧
    "null\n\n" ≠ "null" ++ "\n" := by
  refine ⟨rfl, rfl, by decide⟩

/-- C5 amended: in JSON mode, for every record whose marshalling
succeeds, Write performs exactly one sink write holding the marshalled
document followed by two newlines — no enclosing array and no commas,
one self-contained write per record. -/
theorem C5_amended {Obj : Type} (o : Oracles Obj) (t : WState Obj) (x : Obj)
    (s : String) (he : t.err = none) (hh : t.HeaderFormat = "")
    (hv : t.ValueFormat = "json") (hm : o.marshalIndent x = (s, none)) :
    (Write o t x).trace = t.trace ++ [SinkEvent.write (s ++ "\n\n")] ∧
    (Write o t x).err = o.sinkWriteErr (s ++ "\n\n") := by
  rw [Write_json o t x s he hh hv hm]
  constructor <;> simp [String.append_assoc]

/-- C5 witness: a concrete json-mode Write appends one sink write of
the document plus two newlines. -/
theorem C5_witness :
    (Write oU (NewWriter Unit LU [] cfgJson) ()).trace =
      (NewWriter Unit LU [] cfgJson).trace ++ [SinkEvent.write ("null" ++ "\n\n")] :=
  (C5_amended oU (NewWriter Unit LU [] cfgJson) () "null" rfl rfl rfl rfl).1

/-- Statement of the quiet-mode claim in the spec's words: the value
template of the first row whose first cell equals the identifier
column (that row's value template being the layout collaborator's
single-column format of its second cell) with a trailing newline, and
the empty string when no row matches. -/
def quietValueTemplateSpec (L : Layout) (idc : String)
    (values : List (List String)) : String :=
  match values.find? (fun r => r.head? == some idc) with
  | some r => L.SimpleColumnFormat (r.getD 1 "") ++ "\n"
  | none => ""

theorem idFormat_eq_spec (L : Layout) (idc : String) (values : List (List String))
    (h : ∀ r ∈ values, 2 ≤ r.length) :
    idFormat L idc values = quietValueTemplateSpec L idc values := by
  induction values with
  | nil => rfl
  | cons vals rest ih =>
    have hlen := h vals (List.mem_cons_self _ _)
    have hrest : ∀ r ∈ rest, 2 ≤ r.length :=
      fun r hr => h r (List.mem_cons_of_mem _ hr)
    match vals, hlen with
    | a :: b :: tl, _ =>
      by_cases hab : a = idc
      · subst hab
        simp [idFormat, quietValueTemplateSpec, List.find?]
      · rw [show idFormat L idc ((a :: b :: tl) :: rest) = idFormat L idc rest by
          simp [idFormat, hab]]
        rw [ih hrest]
        unfold quietValueTemplateSpec
        rw [List.find?_cons_of_neg]
        simp [hab]

/-- C6: with Quiet true and Format empty, construction clears the
header template and sets the value template to the identifier template:
the value template of the first row (each row having a name cell and a
template cell) whose first cell equals IDColumn, with a trailing
newline, or the empty string when no row matches. -/
theorem C6_quiet_value_template (Obj : Type) (L : Layout)
    (values : List (List String)) (cfg : WriterConfig)
    (hq : cfg.Quiet = true) (hf : cfg.Format = "")
    (hrows : ∀ r ∈ values, 2 ≤ r.length) :
    (NewWriter Obj L values cfg).HeaderFormat = "" ∧
    (NewWriter Obj L values cfg).ValueFormat =
      quietValueTemplateSpec L cfg.IDColumn values := by
  constructor
  · simp [NewWriter, hq, hf]
  · simp only [NewWriter, hq, hf, if_true]
    simpa using idFormat_eq_spec L cfg.IDColumn values hrows

/-- C6 witness: a concrete quiet construction selects the ID row's
column template plus newline. -/
theorem C6_witness :
    (NewWriter Unit LU [["X", "a"], ["ID", "b"]] cfgQuiet).HeaderFormat = "" ∧
    (NewWriter Unit LU [["X", "a"], ["ID", "b"]] cfgQuiet).ValueFormat =
      quietValueTemplateSpec LU cfgQuiet.IDColumn [["X", "a"], ["ID", "b"]] :=
  C6_quiet_value_template Unit LU [["X", "a"], ["ID", "b"]] cfgQuiet rfl rfl (by decide)

/-- C7: the per-writer id function returns its input unchanged when
NoTrunc or Quiet is set; otherwise it truncates to the first 12
characters exactly when the input is longer than 12 characters; and it
never returns an error. -/
theorem C7_id_function (cfg : WriterConfig) (s : String) :
    ((cfg.NoTrunc = true ∨ cfg.Quiet = true) → idFunc cfg s = (s, none)) ∧
    (cfg.NoTrunc = false → cfg.Quiet = false →
      (12 < s.length → idFunc cfg s = (s.take 12, none)) ∧
      (s.length ≤ 12 → idFunc cfg s = (s, none))) ∧
    (idFunc cfg s).2 = none := by
  refine ⟨?_, ?_, ?_⟩
  · intro h
    rcases h with h | h <;> simp [idFunc, h]
  · intro h1 h2
    constructor
    · intro hl
      simp [idFunc, h1, h2, hl]
    · intro hl
      simp [idFunc, h1, h2, Nat.not_lt.mpr hl]
  · unfold idFunc
    split
    · rfl
    · split <;> rfl

/-- C7 witness: the spec's example string is truncated to 12 characters
in the default configuration and kept whole under NoTrunc. -/
theorem C7_witness :
    idFunc cfgTable "abcdef0123456789" = ("abcdef012345", none) ∧
    idFunc { cfgTable with NoTrunc := true } "abcdef0123456789" =
      ("abcdef0123456789", none) := by
  have h1 := ((C7_id_function cfgTable "abcdef0123456789").2.1 rfl rfl).1 (by decide)
  have h2 := (C7_id_function { cfgTable with NoTrunc := true }
    "abcdef0123456789").1 (Or.inl rfl)
  rw [h1, h2]
  refine ⟨by decide, rfl⟩

theorem graphLoop_closed (v : Int) :
    ∀ n : Nat, graphLoop v n =
      (if n = 0 then ""
       else String.mk (List.replicate (n - 1) '=') ++ ("> " ++ toString v))
  | 0 => rfl
  | 1 => by simp [graphLoop]
  | (k + 2) => by
    rw [show graphLoop v (k + 2) = "=" ++ graphLoop v (k + 1) from rfl,
      graphLoop_closed v (k + 1)]
    rw [if_neg (show ¬(k + 1 = 0) by omega), if_neg (show ¬(k + 2 = 0) by omega)]
    rw [show k + 1 - 1 = k from rfl, show k + 2 - 1 = k + 1 from rfl]
    rw [← String.append_assoc]
    congr 1

set_option maxRecDepth 16000 in
/-- C8 counterexample: at value = 410 the float64 computation rounds
below the integer: 410 / 100.0 is the binary64 value just under 4.1,
times 30 stays just under 123, and the int conversion truncates to 122
bars, while the claim's floor(410 / 100 * 30) is 123 — the emitted
string has one equals sign fewer than the claim describes. -/
theorem C8_counterexample :
    float64Bars 410 = 122 ∧
    Int.fdiv (410 * 30) 100 = 123 ∧
    (Graph 410).1 = String.mk (List.replicate 121 '=') ++ "> 410" ∧
    (Graph 410).1 ≠ graphSpec 410 := by
  exact ⟨by decide, by decide, by decide, by decide⟩

/-- C8 amended: Graph's output is the empty string when the computed
bars value is not positive, and otherwise bars characters, every one
an equals sign except the last, which is replaced by the label
"> value" — where bars is the float64 computation
int(float64(value) / 100.0 * 30) (modelled bit-exactly), which differs
from the exact floor(value / 100 * 30) at some inputs such as 410; the
error component is always nil; in particular graph(50) is fourteen
equals signs followed by "> 50" (15 bars) and graph(0) is empty. -/
theorem C8_graph_amended (v : Int) :
    ((Graph v).1 =
      (if float64Bars v ≤ 0 then ""
       else String.mk (List.replicate (float64Bars v - 1).toNat '=') ++
         ("> " ++ toString v)) ∧
     (Graph v).2 = none) ∧
    (Graph 50).1 = String.mk (List.replicate 14 '=') ++ "> 50" ∧
    (Graph 0).1 = "" := by
  refine ⟨⟨?_, rfl⟩, by decide, by decide⟩
  show graphLoop v (float64Bars v).toNat = _
  rw [graphLoop_closed]
  by_cases h : float64Bars v ≤ 0
  · rw [if_pos (show (float64Bars v).toNat = 0 by omega), if_pos h]
  · rw [if_neg (show ¬((float64Bars v).toNat = 0) by omega), if_neg h,
      show (float64Bars v).toNat - 1 = (float64Bars v - 1).toNat by omega]

theorem writeValue_default {Obj : Type} (o : Oracles Obj) (t : WState Obj) (x : Obj)
    (h1 : t.ValueFormat ≠ "json") (h2 : t.ValueFormat ≠ "jsoncompact")
    (h3 : t.ValueFormat ≠ "yaml") :
    writeValue o t x =
      match o.encodeToMap x with
      | Except.ok data =>
        printTemplateTo o t t.ValueFormat
          (RenderCtx.fromMap (mapSet data "Typed" (GoIface.typed x)))
      | Except.error _ =>
        printTemplateTo o t t.ValueFormat (RenderCtx.rawObj x) := by
  unfold writeValue
  rw [if_neg h1, if_neg h2, if_neg h3]

/-- Concrete oracles whose record conversion succeeds with a one-entry
map. -/
def oOk : Oracles Unit :=
  { oU with encodeToMap := fun _ => Except.ok [("k", GoIface.val "v")] }

/-- C9: in templated mode (ValueFormat none of the sentinel tags), when
conversion succeeds the template is executed against the converted map
with the extra key "Typed" bound to the original record; when
conversion fails, the conversion error is swallowed — the writer's
error is exactly the template engine's result on the original record —
and the template is executed directly against the original record. -/
theorem C9_templated_fallback {Obj : Type} (o : Oracles Obj) (t : WState Obj)
    (x : Obj) (he : t.err = none) (hh : t.HeaderFormat = "")
    (h1 : t.ValueFormat ≠ "json") (h2 : t.ValueFormat ≠ "jsoncompact")
    (h3 : t.ValueFormat ≠ "yaml") :
    (∀ m, o.encodeToMap x = Except.ok m →
      Write o t x = printTemplateTo o t t.ValueFormat
        (RenderCtx.fromMap (mapSet m "Typed" (GoIface.typed x)))) ∧
    (∀ e, o.encodeToMap x = Except.error e →
      Write o t x = printTemplateTo o t t.ValueFormat (RenderCtx.rawObj x) ∧
      (Write o t x).err = (o.render t.ValueFormat (RenderCtx.rawObj x)).2) := by
  have hW : Write o t x = writeValue o t x := by
    unfold Write
    rw [writeHeader_of_empty o t hh, if_neg (by simp [he]), if_neg (by simp [he])]
  constructor
  · intro m hm
    rw [hW, writeValue_default o t x h1 h2 h3, hm]
  · intro e hm
    rw [hW, writeValue_default o t x h1 h2 h3, hm]
    exact ⟨rfl, rfl⟩

/-- C9 witness: with failing conversion the template runs on the raw
record; with succeeding conversion it runs on the map plus Typed. -/
theorem C9_witness :
    Write oU tNoHdr () =
      printTemplateTo oU tNoHdr tNoHdr.ValueFormat (RenderCtx.rawObj ()) ∧
    Write oOk tNoHdr () =
      printTemplateTo oOk tNoHdr tNoHdr.ValueFormat
        (RenderCtx.fromMap (mapSet [("k", GoIface.val "v")] "Typed" (GoIface.typed ()))) :=
  ⟨((C9_templated_fallback oU tNoHdr () rfl rfl (by decide) (by decide)
      (by decide)).2 "conversion failed" rfl).1,
    (C9_templated_fallback oOk tNoHdr () rfl rfl (by decide) (by decide)
      (by decide)).1 [("k", GoIface.val "v")] rfl⟩

theorem prepend_ne_empty (c v : String) (hc : c.length ≠ 0) : c ++ v ≠ "" := by
  intro h
  have hl : (c ++ v).length = 0 := by rw [h]; rfl
  rw [String.length_append] at hl
  omega

/-- C10: Pointer is not total — it panics (none) on the nil interface
and on values of non-nilable kinds such as int and string; it panics
exactly when the reflective nil check does, which happens only on
non-nilable kinds; it returns the empty string exactly for nil values
of nilable kinds; and for non-nil values of nilable kinds it returns
the printed form. -/
theorem C10_pointer_partiality :
    Pointer GoVal.nilInterface = none ∧
    Pointer (GoVal.intVal 0) = none ∧
    Pointer (GoVal.strVal "s") = none ∧
    (∀ d : GoVal, Pointer d = none ↔ d.isNil = none) ∧
    (∀ d : GoVal, d.isNil = none → d.nilableKind = false) ∧
    (∀ d : GoVal, Pointer d = some "" ↔ (d.nilableKind = true ∧ d.isNil = some true)) ∧
    (∀ d : GoVal, d.isNil = some false → Pointer d = some d.sprint) := by
  refine ⟨rfl, rfl, rfl, ?_, ?_, ?_, ?_⟩
  · intro d
    cases d <;> simp [Pointer, GoVal.isNil] <;> rename_i v <;> cases v <;> simp
  · intro d h
    cases d <;> simp_all [GoVal.isNil, GoVal.nilableKind]
  · intro d
    cases d with
    | nilInterface => simp [Pointer, GoVal.isNil, GoVal.nilableKind]
    | intVal n => simp [Pointer, GoVal.isNil, GoVal.nilableKind]
    | strVal s => simp [Pointer, GoVal.isNil, GoVal.nilableKind]
    | ptrVal v =>
      cases v with
      | none => simp [Pointer, GoVal.isNil, GoVal.nilableKind]
      | some w =>
        simp [Pointer, GoVal.isNil, GoVal.nilableKind, GoVal.sprint]
        exact prepend_ne_empty "&" w (by decide)
    | sliceVal v =>
      cases v with
      | none => simp [Pointer, GoVal.isNil, GoVal.nilableKind]
      | some l =>
        simp [Pointer, GoVal.isNil, GoVal.nilableKind, GoVal.sprint]
        exact prepend_ne_empty ("[" ++ String.intercalate " " l) "]"
          (by rw [String.length_append]
              have h1 : ("[" : String).length = 1 := rfl
              omega)
    | mapVal v =>
      cases v with
      | none => simp [Pointer, GoVal.isNil, GoVal.nilableKind]
      | some l =>
        simp [Pointer, GoVal.isNil, GoVal.nilableKind, GoVal.sprint]
        exact prepend_ne_empty
          ("map[" ++ String.intercalate " " (l.map (fun p => p.fst ++ ":" ++ p.snd))) "]"
          (by rw [String.length_append]
              have h1 : ("map[" : String).length = 4 := rfl
              omega)
  · intro d h
    cases d with
    | nilInterface => simp [GoVal.isNil] at h
    | intVal n => simp [GoVal.isNil] at h
    | strVal s => simp [GoVal.isNil] at h
    | ptrVal v =>
      cases v with
      | none => simp [GoVal.isNil] at h
      | some w => rfl
    | sliceVal v =>
      cases v with
      | none => simp [GoVal.isNil] at h
      | some l => rfl
    | mapVal v =>
      cases v with
      | none => simp [GoVal.isNil] at h
      | some l => rfl

/-- C10 witness: a nil pointer prints empty, an int panics, a non-nil
pointer prints its form. -/
theorem C10_witness :
    Pointer (GoVal.ptrVal none) = some "" ∧
    Pointer (GoVal.intVal 3) = none ∧
    Pointer (GoVal.ptrVal (some "x")) = some (GoVal.ptrVal (some "x")).sprint :=
  ⟨(C10_pointer_partiality.2.2.2.2.2.1 (GoVal.ptrVal none)).mpr ⟨rfl, rfl⟩,
    (C10_pointer_partiality.2.2.2.1 (GoVal.intVal 3)).mpr rfl,
    C10_pointer_partiality.2.2.2.2.2.2 (GoVal.ptrVal (some "x")) rfl⟩

end Table
